import Mathlib

/-
Verification of the dungeon-generator / game-state simulator.

This file shallowly embeds the Python sources of the repository
(src/map/tile.py, src/map/game_map.py, src/procedural/room.py,
src/procedural/dungeon_generator.py, src/game/crystal.py,
src/game/sequence.py, src/game/abilities.py, src/engine/game_state.py)
into Lean and proves or refutes the specification's claims about them.

Modelling conventions:
  * Python ints are Int; Python floats that carry time, cooldown and
    duration values are ℚ (no float rounding is relevant to any claim).
  * Fallible Python operations are embedded in Except String: a returned
    .error models an uncaught Python exception (IndexError, NameError,
    AttributeError, ValueError), .ok models normal return.
  * Python object identity is modelled with explicit ids (Nat) plus a
    heap (Nat → Crystal) where shared mutable crystal objects matter.
  * random.randint / random.choice / random.random draws are modelled by
    threading a stream of Nat draws (StateT (List Nat)); an arbitrary
    stream covers every behaviour of the library RNG.
-/

namespace Spec2Proof

/-! ## Python list primitives

Python sequence indexing `l[i]` resolves a negative index by adding
`len(l)` and raises IndexError when the result is still out of range;
`l[i] = a` behaves the same way on assignment. -/

/-- Python expression l[i] on a list: wraps one negative step, errors
(IndexError) out of range. -/
def pyIndex {α : Type} (l : List α) (i : Int) : Except String α :=
  let j := if i < 0 then i + l.length else i
  if h : 0 ≤ j ∧ j < l.length then
    .ok (l.get ⟨j.toNat, by omega⟩)
  else
    .error "IndexError"

/-- Python statement l[i] = a on a list: wraps one negative step, errors
(IndexError) out of range, otherwise returns the updated list. -/
def pySet {α : Type} (l : List α) (i : Int) (a : α) : Except String (List α) :=
  let j := if i < 0 then i + l.length else i
  if 0 ≤ j ∧ j < l.length then
    .ok (l.set j.toNat a)
  else
    .error "IndexError"

/-- Python range(a, b) as a list of Ints (step 1, empty when b ≤ a). -/
def intRange (a b : Int) : List Int :=
  (List.range (b - a).toNat).map (fun i => a + (i : Int))

/-! ## src/map/tile.py -/

/-- TileType enum of src/map/tile.py. -/
inductive TileType where
  | FLOOR
  | WALL
  | DOOR
  | VOID
deriving DecidableEq, Repr

/-- Tile dataclass of src/map/tile.py.  The field list is exactly the
dataclass's: type, blocks_movement, blocks_sight, explored, visible,
char, color.  There is no walkable field and no walkable property. -/
structure Tile where
  type : TileType
  blocks_movement : Bool := false
  blocks_sight : Bool := false
  explored : Bool := false
  visible : Bool := false
  char : Char := '.'
  color : Int × Int × Int := (255, 255, 255)
deriving DecidableEq, Repr

/-- Tile.floor() preset. -/
def Tile.floor : Tile :=
  { type := TileType.FLOOR, blocks_movement := false, blocks_sight := false,
    char := '.', color := (64, 64, 64) }

/-- Tile.wall() preset. -/
def Tile.wall : Tile :=
  { type := TileType.WALL, blocks_movement := true, blocks_sight := true,
    char := '#', color := (128, 128, 128) }

/-- Tile.door() preset. -/
def Tile.door : Tile :=
  { type := TileType.DOOR, blocks_movement := true, blocks_sight := true,
    char := '+', color := (139, 69, 19) }

/-- Tile.void() preset. -/
def Tile.void : Tile :=
  { type := TileType.VOID, blocks_movement := true, blocks_sight := true,
    char := ' ', color := (0, 0, 0) }

/-! ## src/map/game_map.py -/

/-- GameMap of src/map/game_map.py: width, height and the column-major
grid tiles, with tiles[x][y] the cell at (x, y). -/
structure GameMap where
  width : Int
  height : Int
  tiles : List (List Tile)

/-- GameMap.__init__(width, height): a width × height grid of void tiles
([[Tile.void() for y in range(height)] for x in range(width)]). -/
def GameMap.make (width height : Int) : GameMap :=
  { width := width, height := height,
    tiles := (List.range width.toNat).map
      (fun _ => (List.range height.toNat).map (fun _ => Tile.void)) }

/-- GameMap.in_bounds(x, y): 0 <= x < width and 0 <= y < height. -/
def GameMap.in_bounds (m : GameMap) (x y : Int) : Bool :=
  decide (0 ≤ x) && decide (x < m.width) && decide (0 ≤ y) && decide (y < m.height)

/-- GameMap.get_tile(x, y): the tile at (x, y), or None (modelled some/none)
when out of bounds; the inner indexing can in principle raise, which the
Except layer records. -/
def GameMap.get_tile (m : GameMap) (x y : Int) : Except String (Option Tile) :=
  if m.in_bounds x y then do
    let col ← pyIndex m.tiles x
    let t ← pyIndex col y
    pure (some t)
  else
    pure none

/-- GameMap.set_tile(x, y, tile): writes the cell and returns True when in
bounds, otherwise returns False; the grid mutation tiles[x][y] = tile is
modelled by rebuilding the touched column. -/
def GameMap.set_tile (m : GameMap) (x y : Int) (t : Tile) :
    Except String (GameMap × Bool) :=
  if m.in_bounds x y then do
    let col ← pyIndex m.tiles x
    let col2 ← pySet col y t
    let tiles2 ← pySet m.tiles x col2
    pure ({ m with tiles := tiles2 }, true)
  else
    pure (m, false)

/-- Well-formedness of a GameMap: the grid really has width columns of
height cells each (true of every map GameMap.__init__ builds, and
preserved by set_tile). -/
def GameMap.wf (m : GameMap) : Prop :=
  m.tiles.length = m.width.toNat ∧ ∀ col ∈ m.tiles, col.length = m.height.toNat

instance (m : GameMap) : Decidable m.wf := by
  unfold GameMap.wf
  infer_instance

/-! ## src/procedural/room.py -/

/-- Room of src/procedural/room.py: top-left corner and dimensions.
Equality and hashing are by value, matching Room.__eq__ / Room.__hash__. -/
structure Room where
  x : Int
  y : Int
  width : Int
  height : Int
deriving DecidableEq, Repr

/-- Room.center property: integer floor division (Python //), so Int.fdiv. -/
def Room.center (r : Room) : Int × Int :=
  (r.x + Int.fdiv r.width 2, r.y + Int.fdiv r.height 2)

/-- Room.intersects(other, buffer=1): the four closed comparisons of the
source, verbatim. -/
def Room.intersects (r other : Room) (buffer : Int := 1) : Bool :=
  decide (r.x - buffer ≤ other.x + other.width) &&
  decide (r.x + r.width + buffer ≥ other.x) &&
  decide (r.y - buffer ≤ other.y + other.height) &&
  decide (r.y + r.height + buffer ≥ other.y)

/-- The set of grid cells a room occupies: x..x+width-1 times
y..y+height-1 (the cells its interior loop in place_in_map writes). -/
def Room.cellFinset (r : Room) : Finset (Int × Int) :=
  Finset.Icc r.x (r.x + r.width - 1) ×ˢ Finset.Icc r.y (r.y + r.height - 1)

/-! ## Random draws

Python's random.randint / random.choice / random.random are modelled by
consuming a stream of arbitrary Nat draws, so every theorem quantifying
over the stream covers every behaviour of the library RNG. -/

/-- Monad for code that consumes random draws and can raise. -/
abbrev RandM (α : Type) := StateT (List Nat) (Except String) α

/-- Consumes one draw from the stream (0 when exhausted; real Python
never exhausts its RNG, so theorems choose streams long enough). -/
def draw : RandM Nat := fun s => .ok (s.headD 0, s.tail)

/-- random.randint(a, b): uniform on a..b inclusive; raises ValueError
when b < a.  A draw r maps to a + r mod (b - a + 1), which ranges over
exactly a..b as r does. -/
def randint (a b : Int) : RandM Int := do
  if b < a then
    throw "ValueError"
  else
    let r ← draw
    pure (a + ((r % (b - a + 1).toNat : Nat) : Int))

/-- The test random.random() < 0.5, as one draw. -/
def coin : RandM Bool := do
  let r ← draw
  pure (r % 2 == 0)

/-- Room.create_random(map_width, map_height, min_size, max_size). -/
def Room.create_random (map_width map_height min_size max_size : Int) :
    RandM (Option Room) := do
  let width ← randint min_size max_size
  let height ← randint min_size max_size
  let max_x := map_width - width - 2
  let max_y := map_height - height - 2
  if max_x ≤ 2 ∨ max_y ≤ 2 then
    pure none
  else do
    let x ← randint 2 max_x
    let y ← randint 2 max_y
    pure (some { x := x, y := y, width := width, height := height })

/-- Evaluation of the expression game_map.get_tile(...).type == TileType.VOID
as it occurs in src/procedural/room.py.  Python first evaluates the left
operand: when get_tile returned None, the attribute access .type raises
AttributeError.  Otherwise it evaluates the right operand TileType.VOID —
but room.py imports only Tuple, Optional, GameMap, Tile and random, never
TileType, so the name lookup raises NameError at that point.  Either way
the comparison raises. -/
def roomVoidTest (t : Option Tile) : Except String Bool :=
  match t with
  | none => .error "AttributeError"
  | some _ => .error "NameError"

/-- Room.place_in_map(game_map): floors the interior, then walks the
bordering ring attempting to wall cells that are still VOID.  Each ring
check evaluates roomVoidTest, which raises (see there), so the method
raises as soon as a ring loop body runs. -/
def Room.place_in_map (r : Room) (m0 : GameMap) : Except String GameMap := do
  let m1 ← (intRange r.x (r.x + r.width)).foldlM
    (fun m x =>
      (intRange r.y (r.y + r.height)).foldlM
        (fun m y => do
          let (m2, _) ← m.set_tile x y Tile.floor
          pure m2)
        m)
    m0
  let m2 ← (intRange (r.x - 1) (r.x + r.width + 1)).foldlM
    (fun m x => do
      let c1 ← roomVoidTest (← m.get_tile x (r.y - 1))
      let m ← if c1 then do
          let (mw, _) ← m.set_tile x (r.y - 1) Tile.wall
          pure mw
        else pure m
      let c2 ← roomVoidTest (← m.get_tile x (r.y + r.height))
      if c2 then do
        let (mw, _) ← m.set_tile x (r.y + r.height) Tile.wall
        pure mw
      else pure m)
    m1
  (intRange (r.y - 1) (r.y + r.height + 1)).foldlM
    (fun m y => do
      let c1 ← roomVoidTest (← m.get_tile (r.x - 1) y)
      let m ← if c1 then do
          let (mw, _) ← m.set_tile (r.x - 1) y Tile.wall
          pure mw
        else pure m
      let c2 ← roomVoidTest (← m.get_tile (r.x + r.width) y)
      if c2 then do
        let (mw, _) ← m.set_tile (r.x + r.width) y Tile.wall
        pure mw
      else pure m)
    m2

/-! ## src/procedural/dungeon_generator.py -/

/-- DungeonGenerator constructor parameters, with the source defaults. -/
structure DungeonGenerator where
  map_width : Int
  map_height : Int
  min_rooms : Int := 5
  max_rooms : Int := 10
  min_room_size : Int := 6
  max_room_size : Int := 10
  extra_connections : ℚ := 1/10

/-- Evaluation of game_map.get_tile(...).type == TileType.VOID in
dungeon_generator.py, where TileType is imported: AttributeError when
get_tile returned None, otherwise the comparison itself. -/
def genVoidTest (t : Option Tile) : Except String Bool :=
  match t with
  | none => .error "AttributeError"
  | some tl => .ok (decide (tl.type = TileType.VOID))

/-- DungeonGenerator._create_h_tunnel. -/
def DungeonGenerator.create_h_tunnel (m0 : GameMap) (x1 x2 y : Int) :
    Except String GameMap :=
  (intRange (min x1 x2) (max x1 x2 + 1)).foldlM
    (fun m x => do
      let (m, _) ← m.set_tile x y Tile.floor
      let c1 ← genVoidTest (← m.get_tile x (y - 1))
      let m ← if c1 then do
          let (mw, _) ← m.set_tile x (y - 1) Tile.wall
          pure mw
        else pure m
      let c2 ← genVoidTest (← m.get_tile x (y + 1))
      if c2 then do
        let (mw, _) ← m.set_tile x (y + 1) Tile.wall
        pure mw
      else pure m)
    m0

/-- DungeonGenerator._create_v_tunnel. -/
def DungeonGenerator.create_v_tunnel (m0 : GameMap) (y1 y2 x : Int) :
    Except String GameMap :=
  (intRange (min y1 y2) (max y1 y2 + 1)).foldlM
    (fun m y => do
      let (m, _) ← m.set_tile x y Tile.floor
      let c1 ← genVoidTest (← m.get_tile (x - 1) y)
      let m ← if c1 then do
          let (mw, _) ← m.set_tile (x - 1) y Tile.wall
          pure mw
        else pure m
      let c2 ← genVoidTest (← m.get_tile (x + 1) y)
      if c2 then do
        let (mw, _) ← m.set_tile (x + 1) y Tile.wall
        pure mw
      else pure m)
    m0

/-- DungeonGenerator._create_corridor: random L-shaped routing. -/
def DungeonGenerator.create_corridor (m : GameMap) (s e : Int × Int) :
    RandM GameMap := do
  let hFirst ← coin
  if hFirst then do
    let m2 ← DungeonGenerator.create_h_tunnel m s.1 e.1 s.2
    let m3 ← DungeonGenerator.create_v_tunnel m2 s.2 e.2 e.1
    pure m3
  else do
    let m2 ← DungeonGenerator.create_v_tunnel m s.2 e.2 s.1
    let m3 ← DungeonGenerator.create_h_tunnel m2 s.1 e.1 e.2
    pure m3

/-- DungeonGenerator._distance_between: Manhattan distance of centers. -/
def DungeonGenerator.distance_between (r1 r2 : Room) : Int :=
  |r2.center.1 - r1.center.1| + |r2.center.2 - r1.center.2|

/-- The inner double loop of _connect_rooms: the first pair attaining the
minimum distance over connected × unconnected (strict < update, so ties
keep the earlier pair; Python's set iteration order is modelled as
insertion order). -/
def DungeonGenerator.best_connection (connected unconnected : List Room) :
    Option (Int × Room × Room) :=
  (connected.flatMap (fun c => unconnected.map (fun u => (c, u)))).foldl
    (fun best p =>
      let d := DungeonGenerator.distance_between p.1 p.2
      match best with
      | none => some (d, p.1, p.2)
      | some (bd, b1, b2) =>
          if d < bd then some (d, p.1, p.2) else some (bd, b1, b2))
    none

/-- The while loop of _connect_rooms; fuel is the number of unconnected
rooms, and each pass moves exactly one room across. -/
def DungeonGenerator.connect_loop (fuel : Nat) (m : GameMap)
    (connected unconnected : List Room) : RandM GameMap :=
  match fuel with
  | 0 => pure m
  | fuel + 1 =>
    match unconnected with
    | [] => pure m
    | _ :: _ =>
      match DungeonGenerator.best_connection connected unconnected with
      | none => pure m
      | some (_, r1, r2) => do
          let m2 ← DungeonGenerator.create_corridor m r1.center r2.center
          DungeonGenerator.connect_loop fuel m2 (connected ++ [r2])
            (unconnected.erase r2)

/-- DungeonGenerator._connect_rooms (Prim's algorithm). -/
def DungeonGenerator.connect_rooms (m : GameMap) (rooms : List Room) :
    RandM GameMap :=
  match rooms with
  | [] => pure m
  | r0 :: rest => DungeonGenerator.connect_loop rest.length m [r0] rest

/-- Python int() applied to a float/Rat: truncation toward zero. -/
def pyInt (q : ℚ) : Int :=
  if q < 0 then -Int.floor (-q) else Int.floor q

/-- The possible_connections list of _add_extra_connections: all pairs
(distance, room_i, room_j) with i < j, in loop order. -/
def DungeonGenerator.possible_connections : List Room → List (Int × Room × Room)
  | [] => []
  | r1 :: rest =>
      rest.map (fun r2 => (DungeonGenerator.distance_between r1 r2, r1, r2)) ++
      DungeonGenerator.possible_connections rest

/-- DungeonGenerator._add_extra_connections.  The Python sort of
(distance, Room, Room) tuples would raise TypeError on a distance tie
(Room defines no ordering); it is modelled as a stable sort on the
distance component.  The method is unreachable in any run that accepted
a room, because place_in_map raises first, and with zero rooms generate
skips it. -/
def DungeonGenerator.add_extra_connections (g : DungeonGenerator) (m : GameMap)
    (rooms : List Room) : RandM GameMap := do
  let num_extras := pyInt ((rooms.length : ℚ) * g.extra_connections)
  let sorted := (DungeonGenerator.possible_connections rooms).mergeSort
    (fun a b => decide (a.1 ≤ b.1))
  (sorted.take num_extras.toNat).foldlM
    (fun m p => DungeonGenerator.create_corridor m p.2.1.center p.2.2.center)
    m

/-- The room-placement while loop of generate: runs while fewer than
num_rooms rooms are accepted and attempts remain (cap 100); every pass,
accepted or not, costs one attempt. -/
def DungeonGenerator.place_rooms_loop (g : DungeonGenerator) :
    Nat → GameMap → List Room → Int → RandM (GameMap × List Room)
  | 0, m, rooms, _ => pure (m, rooms)
  | fuel + 1, m, rooms, num_rooms =>
    if (rooms.length : Int) < num_rooms then do
      let roomOpt ← Room.create_random g.map_width g.map_height
        g.min_room_size g.max_room_size
      match roomOpt with
      | none => g.place_rooms_loop fuel m rooms num_rooms
      | some room =>
          if rooms.any (fun other => room.intersects other) then
            g.place_rooms_loop fuel m rooms num_rooms
          else do
            let m2 ← room.place_in_map m
            g.place_rooms_loop fuel m2 (rooms ++ [room]) num_rooms
    else
      pure (m, rooms)

/-- DungeonGenerator.generate. -/
def DungeonGenerator.generate (g : DungeonGenerator) :
    RandM (GameMap × List Room) := do
  let game_map := GameMap.make g.map_width g.map_height
  let num_rooms ← randint g.min_rooms g.max_rooms
  let (m, rooms) ← g.place_rooms_loop 100 game_map [] num_rooms
  match rooms with
  | [] => pure (m, rooms)
  | _ :: _ => do
      let m2 ← DungeonGenerator.connect_rooms m rooms
      let m3 ← g.add_extra_connections m2 rooms
      pure (m3, rooms)

/-! ## src/game/crystal.py

Crystal objects are shared and mutated in place (GameState activates
them, CrystalSequence.update ages them).  Object identity is modelled by
an id (Nat) and the heap of live crystal objects by a store
Nat → Crystal; every operation that reads or mutates a crystal goes
through the store. -/

/-- CrystalType enum of src/game/crystal.py. -/
inductive CrystalType where
  | RED
  | BLUE
  | GREEN
  | PURPLE
  | YELLOW
deriving DecidableEq, Repr

/-- Enum iteration order of `for t in CrystalType`. -/
def allCrystalTypes : List CrystalType :=
  [CrystalType.RED, CrystalType.BLUE, CrystalType.GREEN,
   CrystalType.PURPLE, CrystalType.YELLOW]

/-- One Crystal object's state (cid is its Python object identity). -/
structure Crystal where
  cid : Nat
  crystal_type : CrystalType
  position : Int × Int
  is_active : Bool := false
  activation_time : Option ℚ := none
  duration : ℚ := 30
deriving DecidableEq, Repr

/-- Crystal.activate(). -/
def Crystal.activate (c : Crystal) (now : ℚ) : Crystal :=
  { c with is_active := true, activation_time := some now }

/-- Crystal.deactivate(). -/
def Crystal.deactivate (c : Crystal) : Crystal :=
  { c with is_active := false, activation_time := none }

/-- Python truthiness of the activation_time field: None and 0.0 are
falsy, every other float is truthy. -/
def pyTruthy (t : Option ℚ) : Bool :=
  match t with
  | none => false
  | some q => decide (q ≠ 0)

/-- Crystal.update(): deactivates once now - activation_time exceeds
duration (strictly), guarded by the truthiness test of the source. -/
def Crystal.update (now : ℚ) (c : Crystal) : Crystal :=
  if c.is_active && pyTruthy c.activation_time
      && decide (c.duration < now - c.activation_time.getD 0) then
    c.deactivate
  else
    c

/-! ## src/game/sequence.py -/

/-- CrystalSequence state.  current_sequence holds crystal ids in
activation order; used_crystals is the Python set of crystal objects
(identity-hashed), so a Finset of ids. -/
structure CrystalSequence where
  max_sequence_length : Nat
  target_sequence : List CrystalType
  current_sequence : List Nat
  used_crystals : Finset Nat
  completed_types : Finset CrystalType
deriving DecidableEq

/-- CrystalSequence._generate_sequence: one random.choice over the types
not yet completed, in enum order; empty when none remain.  The draw r
indexes the choice (r mod the number of candidates covers them all). -/
def CrystalSequence.generate_sequence (completed : Finset CrystalType) (r : Nat) :
    List CrystalType :=
  match allCrystalTypes.filter (fun t => t ∉ completed) with
  | [] => []
  | t0 :: rest =>
      [(t0 :: rest).get ⟨r % (t0 :: rest).length, Nat.mod_lt _ (Nat.succ_pos _)⟩]

/-- CrystalSequence.is_complete property. -/
def CrystalSequence.is_complete (store : Nat → Crystal) (s : CrystalSequence) :
    Bool :=
  decide (s.current_sequence.length = s.target_sequence.length) &&
  s.current_sequence.all (fun i => (store i).is_active)

/-- The pruning assignment both add_crystal and update perform on
current_sequence: keep only the still-active crystals. -/
def CrystalSequence.pruned_current (store : Nat → Crystal) (s : CrystalSequence) :
    List Nat :=
  s.current_sequence.filter (fun i => (store i).is_active)

/-- The matching pruning of the used_crystals set. -/
def CrystalSequence.pruned_used (store : Nat → Crystal) (s : CrystalSequence) :
    Finset Nat :=
  s.used_crystals.filter (fun i => (store i).is_active = true)

/-- CrystalSequence.add_crystal(crystal), with the crystal passed by id c
and its state read from the store; r feeds the random.choice of a
regenerated target. -/
def CrystalSequence.add_crystal (store : Nat → Crystal) (s : CrystalSequence)
    (c : Nat) (r : Nat) : CrystalSequence × Bool :=
  if (store c).crystal_type ∈ s.completed_types then
    (s, false)
  else
    let current := CrystalSequence.pruned_current store s
    let used := CrystalSequence.pruned_used store s
    let s1 := { s with current_sequence := current, used_crystals := used }
    if c ∈ used then
      (s1, false)
    else if hlt : current.length < s.target_sequence.length then
      if (store c).crystal_type = s.target_sequence.get ⟨current.length, hlt⟩ then
        let s2 := { s1 with current_sequence := current ++ [c],
                            used_crystals := insert c used }
        if s2.is_complete store then
          let completed2 := insert (store c).crystal_type s.completed_types
          ({ s2 with completed_types := completed2,
                     target_sequence :=
                       CrystalSequence.generate_sequence completed2 r }, true)
        else
          (s2, true)
      else
        ({ s1 with current_sequence := [], used_crystals := ∅ }, false)
    else
      (s1, false)

/-- The heap after the crystal.update() loop of CrystalSequence.update:
each crystal of current_sequence is aged in place, in order. -/
def CrystalSequence.store_after (store : Nat → Crystal) (s : CrystalSequence)
    (now : ℚ) : Nat → Crystal :=
  s.current_sequence.foldl
    (fun st i => Function.update st i (Crystal.update now (st i))) store

/-- CrystalSequence.update(): ages the tracked crystals, prunes inactive
ones from both containers, then the asymmetric reset guard of the source:
len(current) < len(used) and (short-circuit) target_sequence[0] not in
completed_types; evaluating target_sequence[0] on an empty target raises
IndexError. -/
def CrystalSequence.update (store : Nat → Crystal) (s : CrystalSequence)
    (now : ℚ) : Except String ((Nat → Crystal) × CrystalSequence) :=
  let store2 := CrystalSequence.store_after store s now
  let current := CrystalSequence.pruned_current store2 s
  let used := CrystalSequence.pruned_used store2 s
  if current.length < used.card then
    match s.target_sequence with
    | [] => .error "IndexError"
    | t0 :: _ =>
        if t0 ∈ s.completed_types then
          .ok (store2, { s with current_sequence := current, used_crystals := used })
        else
          .ok (store2, { s with current_sequence := [], used_crystals := ∅ })
  else
    .ok (store2, { s with current_sequence := current, used_crystals := used })

/-- CrystalSequence.__init__(sequence_length=3): empty containers and one
generated target. -/
def CrystalSequence.init (sequence_length : Nat) (r : Nat) : CrystalSequence :=
  { max_sequence_length := sequence_length,
    target_sequence := CrystalSequence.generate_sequence ∅ r,
    current_sequence := [],
    used_crystals := ∅,
    completed_types := ∅ }

/-- States a CrystalSequence can be in: constructed, then any interleaving
of add_crystal and (successful) update calls, with arbitrary heaps, ids
and draws at each step — a superset of the states real executions reach. -/
inductive CrystalSequence.Reachable : CrystalSequence → Prop where
  | init (len r : Nat) : CrystalSequence.Reachable (CrystalSequence.init len r)
  | add (store : Nat → Crystal) (s : CrystalSequence) (c r : Nat) :
      CrystalSequence.Reachable s →
      CrystalSequence.Reachable (CrystalSequence.add_crystal store s c r).1
  | update (store store2 : Nat → Crystal) (s s2 : CrystalSequence) (now : ℚ) :
      CrystalSequence.Reachable s →
      CrystalSequence.update store s now = .ok (store2, s2) →
      CrystalSequence.Reachable s2

/-! ## src/game/abilities.py -/

/-- Ability state.  The only concrete ability in the source is Dash
(cooldown 0.5, distance 3, bound to RED), so the Dash subclass's
distance field is inlined into the base record. -/
structure Ability where
  cooldown : ℚ
  last_use : ℚ := 0
  is_unlocked : Bool := false
  distance : Int
deriving DecidableEq, Repr

/-- Dash(): cooldown 0.5 s, distance 3 tiles. -/
def Dash.make : Ability :=
  { cooldown := 1/2, distance := 3 }

/-- Ability.can_use(): time.time() - last_use >= cooldown. -/
def Ability.can_use (a : Ability) (now : ℚ) : Bool :=
  decide (a.cooldown ≤ now - a.last_use)

/-- Ability.use(): records the use timestamp. -/
def Ability.use (a : Ability) (now : ℚ) : Ability :=
  { a with last_use := now }

/-- Dash.get_dash_target(dx, dy, x, y). -/
def Dash.get_dash_target (a : Ability) (dx dy x y : Int) : Int × Int :=
  (x + dx * a.distance, y + dy * a.distance)

/-- AbilityManager: the abilities dict, keyed by crystal type. -/
structure AbilityManager where
  abilities : CrystalType → Option Ability

/-- AbilityManager.__init__(): only the RED dash exists. -/
def AbilityManager.make : AbilityManager :=
  { abilities := fun t => if t = CrystalType.RED then some Dash.make else none }

/-- AbilityManager.get_ability(crystal_type). -/
def AbilityManager.get_ability (m : AbilityManager) (t : CrystalType) :
    Option Ability :=
  m.abilities t

/-- AbilityManager.unlock_ability(crystal_type). -/
def AbilityManager.unlock_ability (m : AbilityManager) (t : CrystalType) :
    AbilityManager :=
  { abilities := fun u =>
      if u = t then (m.abilities t).map (fun a => { a with is_unlocked := true })
      else m.abilities u }

/-- In-place mutation of the ability object stored in the dict (ability.use()
acts on the object the dict holds). -/
def AbilityManager.put (m : AbilityManager) (t : CrystalType) (a : Ability) :
    AbilityManager :=
  { abilities := fun u => if u = t then some a else m.abilities u }

/-! ## src/engine/game_state.py -/

/-- Player entity of game_state.py; char/color are the Entity fields. -/
structure Player where
  x : Int
  y : Int
  char : Char := '@'
  color : Int × Int × Int := (0, 255, 255)
  last_move : ℚ := 0
  move_cooldown : ℚ := 1/10
  abilities : AbilityManager

/-- GameState.  The entities list is omitted: it only ever aliases the
player and nothing reads it.  GameState stores no crystals anywhere:
rooms are plain Room records (the Room class has no crystal attribute)
and no other field holds one. -/
structure GameState where
  game_map : GameMap
  rooms : List Room
  player : Option Player
  sequence : CrystalSequence

/-- Attribute access tile.walkable as it occurs in game_state.py lines 109
and 151.  Tile (src/map/tile.py) is a dataclass whose only fields are
type, blocks_movement, blocks_sight, explored, visible, char and color;
no class in the repository defines a walkable attribute or property.  The
lookup therefore raises AttributeError on a Tile, and on None as well. -/
def Tile.lookup_walkable (t : Option Tile) : Except String Bool :=
  match t with
  | none => .error "AttributeError"
  | some _ => .error "AttributeError"

/-- GameState.move_player(dx, dy), with time.time() passed as now.  After
the walkable test the source simply commits the new position and
timestamp; it contains no crystal check of any kind. -/
def GameState.move_player (s : GameState) (dx dy : Int) (now : ℚ) :
    Except String (GameState × Bool) :=
  match s.player with
  | none => .ok (s, false)
  | some p =>
    if now - p.last_move < p.move_cooldown then
      .ok (s, false)
    else
      let new_x := p.x + dx
      let new_y := p.y + dy
      if s.game_map.in_bounds new_x new_y = false then
        .ok (s, false)
      else do
        let tile ← s.game_map.get_tile new_x new_y
        let w ← Tile.lookup_walkable tile
        if w = false then
          .ok (s, false)
        else
          let p2 := { p with x := new_x, y := new_y, last_move := now }
          .ok ({ s with player := some p2 }, true)

/-- The path-clearing loop of the dash branch of use_ability: steps
i = 1..distance, clamping the target to one step before the first
out-of-bounds or non-walkable cell. -/
def GameState.dash_scan (s : GameState) (p : Player) (dx dy : Int) :
    List Int → Int × Int → Except String (Int × Int)
  | [], target => .ok target
  | i :: rest, target =>
    let check_x := p.x + dx * i
    let check_y := p.y + dy * i
    if s.game_map.in_bounds check_x check_y = false then
      .ok (check_x - dx, check_y - dy)
    else do
      let tile ← s.game_map.get_tile check_x check_y
      let w ← Tile.lookup_walkable tile
      if w = false then
        .ok (check_x - dx, check_y - dy)
      else
        GameState.dash_scan s p dx dy rest target

/-- GameState.use_ability(crystal_type, dx, dy) with time.time() as now. -/
def GameState.use_ability (s : GameState) (t : CrystalType) (dx dy : Int)
    (now : ℚ) : Except String (GameState × Bool) :=
  match s.player with
  | none => .ok (s, false)
  | some p =>
    match p.abilities.get_ability t with
    | none => .ok (s, false)
    | some a =>
      if a.is_unlocked = false then
        .ok (s, false)
      else if a.can_use now = false then
        .ok (s, false)
      else if t = CrystalType.RED then do
        let target0 := Dash.get_dash_target a dx dy p.x p.y
        let target ← GameState.dash_scan s p dx dy
          (intRange 1 (a.distance + 1)) target0
        let mgr2 := p.abilities.put t (a.use now)
        let p2 := { p with x := target.1, y := target.2, abilities := mgr2 }
        .ok ({ s with player := some p2 }, true)
      else
        .ok (s, false)

/-- GameState.activate_crystal(crystal): activates an inactive crystal,
feeds it to the sequence, and unlocks the matching ability on type
completion (self.player access raises if the player is None).  No code in
the repository calls this method. -/
def GameState.activate_crystal (store : Nat → Crystal) (s : GameState)
    (c : Nat) (now : ℚ) (r : Nat) :
    Except String ((Nat → Crystal) × GameState × Bool) :=
  if (store c).is_active = true then
    .ok (store, s, false)
  else
    let store2 := Function.update store c ((store c).activate now)
    let (seq2, added) := CrystalSequence.add_crystal store2 s.sequence c r
    let s2 := { s with sequence := seq2 }
    if added then
      if (store2 c).crystal_type ∈ seq2.completed_types then
        match s2.player with
        | none => .error "AttributeError"
        | some p =>
            .ok (store2, { s2 with player := some { p with
              abilities :=
                p.abilities.unlock_ability (store2 c).crystal_type } }, true)
      else
        .ok (store2, s2, true)
    else
      .ok (store2, s2, false)

/-- GameState.update(): delegates to the sequence. -/
def GameState.update (store : Nat → Crystal) (s : GameState) (now : ℚ) :
    Except String ((Nat → Crystal) × GameState) := do
  let (store2, seq2) ← CrystalSequence.update store s.sequence now
  pure (store2, { s with sequence := seq2 })

/-- GameState._create_player: first room's center, else map center. -/
def GameState.create_player (m : GameMap) (rooms : List Room) : Player :=
  match rooms with
  | room :: _ =>
      { x := room.x + Int.fdiv room.width 2,
        y := room.y + Int.fdiv room.height 2,
        abilities := AbilityManager.make }
  | [] =>
      { x := Int.fdiv m.width 2, y := Int.fdiv m.height 2,
        abilities := AbilityManager.make }

/-- GameState.__init__(map_width, map_height): generates the dungeon with
the default DungeonGenerator parameters, builds the sequence (one draw
for its random.choice), and spawns the player. -/
def GameState.init (map_width map_height : Int) : RandM GameState := do
  let (gm, rooms) ← DungeonGenerator.generate
    { map_width := map_width, map_height := map_height }
  let r ← draw
  pure { game_map := gm, rooms := rooms,
         player := some (GameState.create_player gm rooms),
         sequence := CrystalSequence.init 3 r }

/-! ## Concrete sample data for evaluation theorems -/

/-- A RED crystal object (id 1), already activated. -/
def redCrystal : Crystal :=
  { cid := 1, crystal_type := CrystalType.RED, position := (3, 3),
    is_active := true, activation_time := some 1 }

/-- A BLUE crystal object (id 2), already activated. -/
def blueCrystal : Crystal :=
  { cid := 2, crystal_type := CrystalType.BLUE, position := (4, 3),
    is_active := true, activation_time := some 2 }

/-- A heap holding the two sample crystals (id 2 the blue one, every
other id the red one). -/
def sampleStore : Nat → Crystal :=
  fun i => if i = 2 then blueCrystal else redCrystal

/-- The sequence state after a fresh CrystalSequence (draw 0, so target
[RED]) accepted the red crystal: RED completed, target regenerated. -/
def seqAfterRed : CrystalSequence :=
  (CrystalSequence.add_crystal sampleStore (CrystalSequence.init 3 0) 1 0).1

/-- The player GameState.__init__(10, 10) actually builds: with the
default generator parameters every candidate room of size 6..10 fails
the fit test on a 10 × 10 map, so the room list is empty and the player
spawns at the map center (5, 5). -/
def samplePlayer : Player :=
  { x := 5, y := 5, abilities := AbilityManager.make }

/-- The GameState of a 10 × 10 run: empty room list, all-void map,
player at the center. -/
def sampleState : GameState :=
  { game_map := GameMap.make 10 10, rooms := [], player := some samplePlayer,
    sequence := CrystalSequence.init 3 0 }

/-- The sample player with the RED dash unlocked. -/
def sampleUnlockedPlayer : Player :=
  { samplePlayer with
    abilities := AbilityManager.make.unlock_ability CrystalType.RED }

/-- The same state with the RED dash unlocked (off cooldown at now = 1). -/
def sampleUnlockedState : GameState :=
  { sampleState with player := some sampleUnlockedPlayer }

/-- A second sample state (9 × 9 map, player at (4, 4)) for the
move-and-activation claim. -/
def sampleState6 : GameState :=
  { game_map := GameMap.make 9 9, rooms := [],
    player := some { x := 4, y := 4, abilities := AbilityManager.make },
    sequence := CrystalSequence.init 3 1 }

/-- A 4 × 1 strip — floor, floor, wall, floor — for the dash claim: the
wall stands one walkable tile to the player's right. -/
def dashMap : GameMap :=
  { width := 4, height := 1,
    tiles := [[Tile.floor], [Tile.floor], [Tile.wall], [Tile.floor]] }

/-- A player on the strip at (0, 0) with the RED dash unlocked. -/
def dashPlayer : Player :=
  { x := 0, y := 0,
    abilities := AbilityManager.make.unlock_ability CrystalType.RED }

/-- The dash player after the one dash that does not raise (first step
out of bounds): position unchanged, cooldown started at now = 1. -/
def dashPlayerAfter : Player :=
  { dashPlayer with
    abilities := dashPlayer.abilities.put CrystalType.RED
      (({ Dash.make with is_unlocked := true }).use 1) }

/-- GameState on the dash strip. -/
def dashState : GameState :=
  { game_map := dashMap, rooms := [], player := some dashPlayer,
    sequence := CrystalSequence.init 3 0 }

/-- The invariant of the sequence containers: current_sequence repeats no
crystal and used_crystals is exactly its underlying set. -/
def SeqInv (s : CrystalSequence) : Prop :=
  s.current_sequence.Nodup ∧ s.used_crystals = s.current_sequence.toFinset

/-! ## Theorems -/

theorem GameMap.make_wf (width height : Int) : (GameMap.make width height).wf := by
  constructor
  · simp [GameMap.make]
  · intro col hcol
    simp only [GameMap.make, List.mem_map] at hcol
    obtain ⟨i, _, rfl⟩ := hcol
    simp [GameMap.make]

/-- C7: the claim says Room.place_in_map floors the rectangle and walls
the VOID cells of the bordering ring; in fact room.py never imports
TileType, so the first ring check raises NameError (after the interior
floors were written in place) and the method never completes.  Evaluated
here on a 3 × 3 room in an 8 × 8 map. -/
theorem C7_place_in_map_raises :
    Room.place_in_map { x := 2, y := 2, width := 3, height := 3 }
      (GameMap.make 8 8) = .error "NameError" := by
  rfl

/-- C1: the claim speaks of dungeons returned by generate with at least
one accepted room; generate raises NameError (via place_in_map) as soon
as the first candidate room is accepted, so no such dungeon is ever
returned and the connectivity guarantee never materializes.  Evaluated on
the spec's own 40 × 30 scenario with the default generator parameters and
an all-zero draw stream. -/
theorem C1_generate_raises :
    DungeonGenerator.generate { map_width := 40, map_height := 30 }
      [0, 0, 0, 0, 0] = .error "NameError" := by
  rfl

/-- C4: the claim describes the pairwise non-intersection of returned
room lists; generate crashes while accepting its first room, so the only
room list it can ever return is the empty one.  Evaluated on a 30 × 30
generator asked for exactly two 4 × 4 rooms. -/
theorem C4_generate_raises :
    DungeonGenerator.generate
      { map_width := 30, map_height := 30, min_rooms := 2, max_rooms := 2,
        min_room_size := 4, max_room_size := 4 } [] = .error "NameError" := by
  rfl

/-- C9 counterexample: two 2 × 2 rooms that touch edge-to-edge (cells
(1,0) and (2,0) are adjacent) and share no cell, yet intersects with
buffer 0 returns true, not false as the claim states: the source compares
with ≤ and ≥, so coincident closed edges count as overlap. -/
theorem C9_counterexample :
    Disjoint (Room.cellFinset { x := 0, y := 0, width := 2, height := 2 })
      (Room.cellFinset { x := 2, y := 0, width := 2, height := 2 })
  ∧ ((1, 0) ∈ Room.cellFinset { x := 0, y := 0, width := 2, height := 2 })
  ∧ ((2, 0) ∈ Room.cellFinset { x := 2, y := 0, width := 2, height := 2 })
  ∧ Room.intersects { x := 0, y := 0, width := 2, height := 2 }
      { x := 2, y := 0, width := 2, height := 2 } 0 = true := by
  refine ⟨?_, by decide, by decide, by decide⟩
  rw [Finset.disjoint_left]
  intro p hp hq
  simp only [Room.cellFinset, Finset.mem_product, Finset.mem_Icc] at hp hq
  omega

/-- C9 amended: for every pair of rooms that touch — some cell of one is
grid-adjacent to some cell of the other — while sharing no cell,
intersects with buffer 0 returns true: touching-but-not-overlapping is
treated as intersecting even when the buffer is 0. -/
theorem C9_amended (a b : Room) (p q : Int × Int)
    (_hd : Disjoint a.cellFinset b.cellFinset)
    (hp : p ∈ a.cellFinset) (hq : q ∈ b.cellFinset)
    (hadj : (p.1 - q.1).natAbs + (p.2 - q.2).natAbs = 1) :
    Room.intersects a b 0 = true := by
  simp only [Room.cellFinset, Finset.mem_product, Finset.mem_Icc] at hp hq
  simp only [Room.intersects, Bool.and_eq_true, decide_eq_true_eq, ge_iff_le]
  refine ⟨⟨⟨?_, ?_⟩, ?_⟩, ?_⟩ <;> omega

theorem C9_amended_witness :
    Disjoint (Room.cellFinset { x := 0, y := 0, width := 2, height := 2 })
      (Room.cellFinset { x := 0, y := 2, width := 2, height := 2 })
  ∧ ((0, 1) ∈ Room.cellFinset { x := 0, y := 0, width := 2, height := 2 })
  ∧ ((0, 2) ∈ Room.cellFinset { x := 0, y := 2, width := 2, height := 2 })
  ∧ (((0 : Int) - 0).natAbs + ((1 : Int) - 2).natAbs = 1)
  ∧ Room.intersects { x := 0, y := 0, width := 2, height := 2 }
      { x := 0, y := 2, width := 2, height := 2 } 0 = true := by
  refine ⟨by decide, by decide, by decide, by decide,
    C9_amended _ _ (0, 1) (0, 2) (by decide) (by decide) (by decide) (by decide)⟩

/-- C2: the claim says move_player and use_ability always return a
boolean and never raise; both read tile.walkable, an attribute Tile does
not have, so every in-bounds movement and every in-bounds dash step
raises AttributeError.  The last two conjuncts record that the rejection
paths reached before the broken read do return false without mutating
the state (cooldown not elapsed; ability still locked). -/
theorem C2_move_and_ability_raise :
    GameState.move_player sampleState 1 0 1 = .error "AttributeError"
  ∧ GameState.use_ability sampleUnlockedState CrystalType.RED 0 1 1
      = .error "AttributeError"
  ∧ GameState.move_player sampleState 1 0 0 = .ok (sampleState, false)
  ∧ GameState.use_ability sampleState CrystalType.RED 1 0 1
      = .ok (sampleState, false) :=
  ⟨by with_unfolding_all rfl, by with_unfolding_all rfl,
   by with_unfolding_all rfl, by with_unfolding_all rfl⟩

/-- A bind chain that runs Tile.lookup_walkable can never return ok:
the lookup raises on every input. -/
theorem walkable_bind_no_ok {α : Type} (e : Except String (Option Tile))
    (f : Bool → Except String α) (a : α) :
    e >>= (fun t => Tile.lookup_walkable t >>= f) ≠ .ok a := by
  cases e with
  | error msg => intro h; cases h
  | ok t => cases t <;> (intro h; cases h)

/-- C6: the claim says a successful move_player activates any inactive
crystal at the new position and feeds it to the sequence.  In the source,
move_player contains no crystal code at all (activate_crystal exists but
has no caller, and GameState stores no crystals); moreover every in-bounds
move raises AttributeError on tile.walkable, so no move over a crystal
can even succeed.  First conjunct: the evaluation at a concrete state;
second: every outcome move_player can return leaves sequence and rooms
untouched. -/
theorem C6_move_player_activates_nothing :
    (GameState.move_player sampleState6 1 0 1 = .error "AttributeError")
  ∧ ∀ (s : GameState) (dx dy : Int) (now : ℚ) (s2 : GameState) (b : Bool),
      GameState.move_player s dx dy now = .ok (s2, b) →
      s2.sequence = s.sequence ∧ s2.rooms = s.rooms := by
  refine ⟨by with_unfolding_all rfl, ?_⟩
  intro s dx dy now s2 b h
  unfold GameState.move_player at h
  split at h
  · cases h
    exact ⟨rfl, rfl⟩
  · split at h
    · cases h
      exact ⟨rfl, rfl⟩
    · dsimp only at h
      split at h
      · cases h
        exact ⟨rfl, rfl⟩
      · exact absurd h (walkable_bind_no_ok _ _ _)

theorem C6_witness :
    GameState.move_player sampleState6 99 99 1 = .ok (sampleState6, false)
  ∧ sampleState6.sequence = sampleState6.sequence
  ∧ sampleState6.rooms = sampleState6.rooms :=
  ⟨by with_unfolding_all rfl,
   C6_move_player_activates_nothing.2 sampleState6 99 99 1 sampleState6
    false (by with_unfolding_all rfl)⟩

/-- C8: the claim says a dash clamps to the last passable tile and starts
the cooldown; in the source the clamp loop reads tile.walkable on the
first in-bounds step, which raises AttributeError, so the dash toward the
wall one walkable tile away crashes instead of moving one tile.  The only
dash that completes is one whose first step already leaves the map (second
conjunct): it moves zero tiles yet still starts the cooldown. -/
theorem C8_dash_raises :
    GameState.use_ability dashState CrystalType.RED 1 0 1
      = .error "AttributeError"
  ∧ GameState.use_ability dashState CrystalType.RED (-1) 0 1
      = .ok ({ dashState with player := some dashPlayerAfter }, true)
  ∧ dashPlayerAfter.x = 0 ∧ dashPlayerAfter.y = 0
  ∧ (dashPlayerAfter.abilities.get_ability CrystalType.RED).map
      (fun a => a.last_use) = some 1 :=
  ⟨by with_unfolding_all rfl, by with_unfolding_all rfl, rfl, rfl,
   by with_unfolding_all rfl⟩

/-- A regenerated target either is empty with every type completed, or is
one single not-yet-completed type. -/
theorem generate_sequence_spec (completed : Finset CrystalType) (r : Nat) :
    (CrystalSequence.generate_sequence completed r = [] ∧ ∀ t, t ∈ completed)
  ∨ ∃ t, CrystalSequence.generate_sequence completed r = [t] ∧ t ∉ completed := by
  unfold CrystalSequence.generate_sequence
  cases h : allCrystalTypes.filter (fun t => t ∉ completed) with
  | nil =>
    left
    refine ⟨rfl, fun t => ?_⟩
    by_contra hc
    have hmem : t ∈ allCrystalTypes.filter (fun t => t ∉ completed) := by
      rw [List.mem_filter]
      exact ⟨by cases t <;> simp [allCrystalTypes], by simpa using hc⟩
    rw [h] at hmem
    exact absurd hmem (List.not_mem_nil t)
  | cons t0 rest =>
    right
    refine ⟨_, rfl, ?_⟩
    generalize hx : (t0 :: rest).get
      ⟨r % (t0 :: rest).length, Nat.mod_lt _ (Nat.succ_pos _)⟩ = x
    have hmem : x ∈ t0 :: rest := by
      rw [← hx]
      exact List.get_mem _ _ _
    have hmem2 : x ∈ allCrystalTypes.filter (fun t => t ∉ completed) := by
      rw [h]
      exact hmem
    simpa using (List.mem_filter.mp hmem2).2

/-- The regenerated target is empty exactly when every type is completed. -/
theorem generate_sequence_nil_iff (completed : Finset CrystalType) (r : Nat) :
    CrystalSequence.generate_sequence completed r = [] ↔ ∀ t, t ∈ completed := by
  rcases generate_sequence_spec completed r with ⟨hnil, hall⟩ | ⟨t, hone, hnot⟩
  · exact ⟨fun _ => hall, fun _ => hnil⟩
  · rw [hone]
    exact ⟨fun h => absurd h (List.cons_ne_nil t []), fun hall => absurd (hall t) hnot⟩

/-- C3 counterexample: seqAfterRed is the sequence right after a completed
RED (current_sequence still holds the red crystal, target regenerated to
[BLUE]).  Adding the active, unused blue crystal — whose type cannot equal
target_sequence[len(current_sequence)], an out-of-range slot — returns
false but does NOT empty current_sequence and used_crystals, contradicting
the claim's reset-on-mismatch clause. -/
theorem C3_counterexample :
    ((sampleStore 2).is_active = true)
  ∧ (2 ∉ seqAfterRed.used_crystals)
  ∧ ((sampleStore 2).crystal_type ∉ seqAfterRed.completed_types)
  ∧ seqAfterRed.target_sequence = [CrystalType.BLUE]
  ∧ seqAfterRed.current_sequence = [1]
  ∧ CrystalSequence.add_crystal sampleStore seqAfterRed 2 5 = (seqAfterRed, false) := by
  decide

theorem all_active_append (store : Nat → Crystal) (s : CrystalSequence) (c : Nat)
    (hact : (store c).is_active = true) :
    (CrystalSequence.pruned_current store s ++ [c]).all
      (fun i => (store i).is_active) = true := by
  rw [List.all_eq_true]
  intro i hi
  rcases List.mem_append.mp hi with h | h
  · have h2 : i ∈ s.current_sequence.filter (fun j => (store j).is_active) := h
    exact (List.mem_filter.mp h2).2
  · rw [List.mem_singleton.mp h]
    exact hact

theorem add_crystal_completed_type (store : Nat → Crystal) (s : CrystalSequence)
    (c r : Nat) (hcomp : (store c).crystal_type ∈ s.completed_types) :
    CrystalSequence.add_crystal store s c r = (s, false) := by
  unfold CrystalSequence.add_crystal
  rw [if_pos hcomp]

theorem add_crystal_already_used (store : Nat → Crystal) (s : CrystalSequence)
    (c r : Nat) (hcomp : (store c).crystal_type ∉ s.completed_types)
    (hcu : c ∈ CrystalSequence.pruned_used store s) :
    CrystalSequence.add_crystal store s c r =
      ({ s with current_sequence := CrystalSequence.pruned_current store s,
                used_crystals := CrystalSequence.pruned_used store s }, false) := by
  unfold CrystalSequence.add_crystal
  rw [if_neg hcomp]
  dsimp only
  rw [if_pos hcu]

theorem add_crystal_overflow (store : Nat → Crystal) (s : CrystalSequence)
    (c r : Nat) (hcomp : (store c).crystal_type ∉ s.completed_types)
    (hcu : c ∉ CrystalSequence.pruned_used store s)
    (hge : s.target_sequence.length ≤ (CrystalSequence.pruned_current store s).length) :
    CrystalSequence.add_crystal store s c r =
      ({ s with current_sequence := CrystalSequence.pruned_current store s,
                used_crystals := CrystalSequence.pruned_used store s }, false) := by
  unfold CrystalSequence.add_crystal
  rw [if_neg hcomp]
  dsimp only
  rw [if_neg hcu, dif_neg (not_lt.mpr hge)]

theorem add_crystal_mismatch (store : Nat → Crystal) (s : CrystalSequence)
    (c r : Nat) (hcomp : (store c).crystal_type ∉ s.completed_types)
    (hcu : c ∉ CrystalSequence.pruned_used store s)
    (hlt : (CrystalSequence.pruned_current store s).length < s.target_sequence.length)
    (hmis : (store c).crystal_type
      ≠ s.target_sequence.get ⟨(CrystalSequence.pruned_current store s).length, hlt⟩) :
    CrystalSequence.add_crystal store s c r =
      ({ s with current_sequence := [], used_crystals := ∅ }, false) := by
  unfold CrystalSequence.add_crystal
  rw [if_neg hcomp]
  dsimp only
  rw [if_neg hcu, dif_pos hlt, if_neg hmis]

theorem add_crystal_complete (store : Nat → Crystal) (s : CrystalSequence)
    (c r : Nat) (hcomp : (store c).crystal_type ∉ s.completed_types)
    (hcu : c ∉ CrystalSequence.pruned_used store s)
    (hlt : (CrystalSequence.pruned_current store s).length < s.target_sequence.length)
    (hmatch : (store c).crystal_type
      = s.target_sequence.get ⟨(CrystalSequence.pruned_current store s).length, hlt⟩)
    (hact : (store c).is_active = true)
    (hfull : (CrystalSequence.pruned_current store s).length + 1
      = s.target_sequence.length) :
    CrystalSequence.add_crystal store s c r =
      ({ s with
         current_sequence := CrystalSequence.pruned_current store s ++ [c],
         used_crystals := insert c (CrystalSequence.pruned_used store s),
         completed_types := insert (store c).crystal_type s.completed_types,
         target_sequence := CrystalSequence.generate_sequence
           (insert (store c).crystal_type s.completed_types) r }, true) := by
  have hic : CrystalSequence.is_complete store
      { s with current_sequence := CrystalSequence.pruned_current store s ++ [c],
               used_crystals := insert c (CrystalSequence.pruned_used store s) }
      = true := by
    unfold CrystalSequence.is_complete
    rw [Bool.and_eq_true, decide_eq_true_eq]
    exact ⟨by simpa using hfull, all_active_append store s c hact⟩
  unfold CrystalSequence.add_crystal
  rw [if_neg hcomp]
  dsimp only
  rw [if_neg hcu, dif_pos hlt, if_pos hmatch, if_pos hic]

theorem add_crystal_progress (store : Nat → Crystal) (s : CrystalSequence)
    (c r : Nat) (hcomp : (store c).crystal_type ∉ s.completed_types)
    (hcu : c ∉ CrystalSequence.pruned_used store s)
    (hlt : (CrystalSequence.pruned_current store s).length < s.target_sequence.length)
    (hmatch : (store c).crystal_type
      = s.target_sequence.get ⟨(CrystalSequence.pruned_current store s).length, hlt⟩)
    (hfull : (CrystalSequence.pruned_current store s).length + 1
      ≠ s.target_sequence.length) :
    CrystalSequence.add_crystal store s c r =
      ({ s with
         current_sequence := CrystalSequence.pruned_current store s ++ [c],
         used_crystals := insert c (CrystalSequence.pruned_used store s) }, true) := by
  have hic : ¬ CrystalSequence.is_complete store
      { s with current_sequence := CrystalSequence.pruned_current store s ++ [c],
               used_crystals := insert c (CrystalSequence.pruned_used store s) }
      = true := by
    unfold CrystalSequence.is_complete
    rw [Bool.and_eq_true, decide_eq_true_eq]
    intro hx
    apply hfull
    simpa using hx.1
  unfold CrystalSequence.add_crystal
  rw [if_neg hcomp]
  dsimp only
  rw [if_neg hcu, dif_pos hlt, if_pos hmatch, if_neg hic]

/-- C3 amended: as the claim states, an active, unused crystal of a
non-completed type that matches the next open slot of target_sequence is
appended to current_sequence and used_crystals with result true, and on
completing the target the type is recorded in completed_types and a fresh
single-element target is drawn from the not-yet-completed types (empty
exactly when none remain); a crystal whose type fails to match that slot
resets both containers and returns false — but only when the slot
len(current_sequence) exists.  When the pruned current_sequence has
already reached the target length (as happens right after a completion,
the completing crystal being retained), add_crystal returns false and
keeps the pruned containers unchanged instead of resetting them. -/
theorem C3_amended (store : Nat → Crystal) (s : CrystalSequence) (c r : Nat)
    (hact : (store c).is_active = true)
    (hused : c ∉ s.used_crystals)
    (hcomp : (store c).crystal_type ∉ s.completed_types) :
    (∀ hlt : (CrystalSequence.pruned_current store s).length
        < s.target_sequence.length,
      ((store c).crystal_type = s.target_sequence.get
          ⟨(CrystalSequence.pruned_current store s).length, hlt⟩ →
        ∃ s2, CrystalSequence.add_crystal store s c r = (s2, true)
          ∧ s2.current_sequence = CrystalSequence.pruned_current store s ++ [c]
          ∧ s2.used_crystals = insert c (CrystalSequence.pruned_used store s)
          ∧ ((CrystalSequence.pruned_current store s).length + 1
                = s.target_sequence.length →
              s2.completed_types = insert (store c).crystal_type s.completed_types
            ∧ (s2.target_sequence = []
                 ∨ ∃ t, s2.target_sequence = [t] ∧ t ∉ s2.completed_types)
            ∧ (s2.target_sequence = [] ↔ ∀ t, t ∈ s2.completed_types))
          ∧ ((CrystalSequence.pruned_current store s).length + 1
                ≠ s.target_sequence.length →
              s2.completed_types = s.completed_types
            ∧ s2.target_sequence = s.target_sequence))
      ∧ ((store c).crystal_type ≠ s.target_sequence.get
          ⟨(CrystalSequence.pruned_current store s).length, hlt⟩ →
        CrystalSequence.add_crystal store s c r
          = ({ s with current_sequence := [], used_crystals := ∅ }, false)))
  ∧ (s.target_sequence.length ≤ (CrystalSequence.pruned_current store s).length →
      CrystalSequence.add_crystal store s c r
        = ({ s with current_sequence := CrystalSequence.pruned_current store s,
                    used_crystals := CrystalSequence.pruned_used store s }, false)) := by
  have hcu : c ∉ CrystalSequence.pruned_used store s := fun hmem =>
    hused (Finset.mem_filter.mp hmem).1
  constructor
  · intro hlt
    constructor
    · intro hmatch
      by_cases hfull : (CrystalSequence.pruned_current store s).length + 1
          = s.target_sequence.length
      · rw [add_crystal_complete store s c r hcomp hcu hlt hmatch hact hfull]
        refine ⟨_, rfl, rfl, rfl, fun _ => ⟨rfl, ?_, ?_⟩, fun hne => absurd hfull hne⟩
        · rcases generate_sequence_spec
            (insert (store c).crystal_type s.completed_types) r with ⟨hnil, _⟩ | hone
          · exact Or.inl hnil
          · exact Or.inr hone
        · exact generate_sequence_nil_iff _ r
      · rw [add_crystal_progress store s c r hcomp hcu hlt hmatch hfull]
        exact ⟨_, rfl, rfl, rfl, fun heq => absurd heq hfull, fun _ => ⟨rfl, rfl⟩⟩
    · intro hmis
      exact add_crystal_mismatch store s c r hcomp hcu hlt hmis
  · intro hge
    exact add_crystal_overflow store s c r hcomp hcu hge

theorem C3_amended_witness :
    (CrystalSequence.add_crystal sampleStore (CrystalSequence.init 3 0) 1 0).2
      = true := by
  have h := C3_amended sampleStore (CrystalSequence.init 3 0) 1 0
    (by decide) (by decide) (by decide)
  obtain ⟨s2, heq, _⟩ := (h.1 (by decide)).1 (by decide)
  rw [heq]

theorem pruned_used_of_inv (store : Nat → Crystal) (s : CrystalSequence)
    (h : SeqInv s) :
    CrystalSequence.pruned_used store s
      = (CrystalSequence.pruned_current store s).toFinset := by
  unfold CrystalSequence.pruned_used CrystalSequence.pruned_current
  rw [h.2]
  ext a
  simp [List.mem_toFinset, List.mem_filter]

theorem pruned_length_eq_card (store : Nat → Crystal) (s : CrystalSequence)
    (h : SeqInv s) :
    (CrystalSequence.pruned_current store s).length
      = (CrystalSequence.pruned_used store s).card := by
  rw [pruned_used_of_inv store s h]
  exact (List.toFinset_card_of_nodup (h.1.filter _)).symm

theorem seqInv_pruned (store : Nat → Crystal) (s : CrystalSequence)
    (h : SeqInv s) :
    SeqInv { s with
      current_sequence := CrystalSequence.pruned_current store s,
      used_crystals := CrystalSequence.pruned_used store s } :=
  ⟨h.1.filter _, pruned_used_of_inv store s h⟩

theorem add_crystal_append_containers (store : Nat → Crystal)
    (s : CrystalSequence) (c r : Nat)
    (hcomp : (store c).crystal_type ∉ s.completed_types)
    (hcu : c ∉ CrystalSequence.pruned_used store s)
    (hlt : (CrystalSequence.pruned_current store s).length
      < s.target_sequence.length)
    (hmatch : (store c).crystal_type = s.target_sequence.get
      ⟨(CrystalSequence.pruned_current store s).length, hlt⟩) :
    ((CrystalSequence.add_crystal store s c r).1.current_sequence
        = CrystalSequence.pruned_current store s ++ [c])
  ∧ ((CrystalSequence.add_crystal store s c r).1.used_crystals
        = insert c (CrystalSequence.pruned_used store s)) := by
  unfold CrystalSequence.add_crystal
  rw [if_neg hcomp]
  dsimp only
  rw [if_neg hcu, dif_pos hlt, if_pos hmatch]
  split
  · exact ⟨rfl, rfl⟩
  · exact ⟨rfl, rfl⟩

theorem seqInv_add (store : Nat → Crystal) (s : CrystalSequence) (c r : Nat)
    (h : SeqInv s) :
    SeqInv (CrystalSequence.add_crystal store s c r).1 := by
  by_cases hcomp : (store c).crystal_type ∈ s.completed_types
  · rw [add_crystal_completed_type store s c r hcomp]
    exact h
  · by_cases hcu : c ∈ CrystalSequence.pruned_used store s
    · rw [add_crystal_already_used store s c r hcomp hcu]
      exact seqInv_pruned store s h
    · by_cases hlt : (CrystalSequence.pruned_current store s).length
          < s.target_sequence.length
      · by_cases hmatch : (store c).crystal_type = s.target_sequence.get
            ⟨(CrystalSequence.pruned_current store s).length, hlt⟩
        · have hc2 := add_crystal_append_containers store s c r hcomp hcu hlt hmatch
          have hcnotin : c ∉ CrystalSequence.pruned_current store s := by
            intro hin
            apply hcu
            rw [pruned_used_of_inv store s h]
            exact List.mem_toFinset.mpr hin
          have hpn : (CrystalSequence.pruned_current store s).Nodup :=
            h.1.filter _
          constructor
          · rw [hc2.1, List.nodup_append]
            refine ⟨hpn, List.nodup_singleton c, ?_⟩
            intro a ha hb
            rw [List.mem_singleton.mp hb] at ha
            exact hcnotin ha
          · rw [hc2.1, hc2.2, pruned_used_of_inv store s h]
            ext a
            simp [List.mem_toFinset, or_comm]
        · rw [add_crystal_mismatch store s c r hcomp hcu hlt hmatch]
          exact ⟨List.nodup_nil, by simp⟩
      · rw [add_crystal_overflow store s c r hcomp hcu (not_lt.mp hlt)]
        exact seqInv_pruned store s h

theorem update_of_inv (store : Nat → Crystal) (s : CrystalSequence) (now : ℚ)
    (h : SeqInv s) :
    CrystalSequence.update store s now = .ok
      (CrystalSequence.store_after store s now,
       { s with
         current_sequence := CrystalSequence.pruned_current
           (CrystalSequence.store_after store s now) s,
         used_crystals := CrystalSequence.pruned_used
           (CrystalSequence.store_after store s now) s }) := by
  have hlen := pruned_length_eq_card (CrystalSequence.store_after store s now) s h
  unfold CrystalSequence.update
  dsimp only
  rw [if_neg (by omega)]

theorem seqInv_reachable (s : CrystalSequence)
    (h : CrystalSequence.Reachable s) : SeqInv s := by
  induction h with
  | init len r => exact ⟨List.nodup_nil, by simp [CrystalSequence.init]⟩
  | add store s c r hr ih => exact seqInv_add store s c r ih
  | update store store2 s s2 now hr hok ih =>
      rw [update_of_inv store s now ih] at hok
      injection hok with hpair
      injection hpair with hstore hseq
      rw [← hseq]
      exact seqInv_pruned (CrystalSequence.store_after store s now) s ih

/-- C10: in every CrystalSequence reachable from the constructor through
add_crystal and update calls, used_crystals is exactly the set underlying
current_sequence (which repeats no crystal), so their sizes agree;
consequently update never takes the reset branch guarded by
len(current_sequence) < len(used_crystals) — its result is always the
plain pruning — and the short-circuited target_sequence[0] there is never
evaluated, so no IndexError occurs even when target_sequence is empty. -/
theorem C10_used_matches_current (s : CrystalSequence)
    (h : CrystalSequence.Reachable s) :
    s.current_sequence.Nodup
  ∧ s.used_crystals = s.current_sequence.toFinset
  ∧ s.current_sequence.length = s.used_crystals.card
  ∧ ∀ (store : Nat → Crystal) (now : ℚ),
      CrystalSequence.update store s now = .ok
        (CrystalSequence.store_after store s now,
         { s with
           current_sequence := CrystalSequence.pruned_current
             (CrystalSequence.store_after store s now) s,
           used_crystals := CrystalSequence.pruned_used
             (CrystalSequence.store_after store s now) s }) := by
  have hinv : SeqInv s := seqInv_reachable s h
  refine ⟨hinv.1, hinv.2, ?_, fun store now => update_of_inv store s now hinv⟩
  rw [hinv.2, List.toFinset_card_of_nodup hinv.1]

theorem C10_witness :
    CrystalSequence.update sampleStore (CrystalSequence.init 3 0) 5 = .ok
      (CrystalSequence.store_after sampleStore (CrystalSequence.init 3 0) 5,
       CrystalSequence.init 3 0) := by
  have h := (C10_used_matches_current (CrystalSequence.init 3 0)
    (CrystalSequence.Reachable.init 3 0)).2.2.2 sampleStore 5
  rw [h]
  with_unfolding_all rfl

theorem in_bounds_iff (m : GameMap) (x y : Int) :
    m.in_bounds x y = true ↔ 0 ≤ x ∧ x < m.width ∧ 0 ≤ y ∧ y < m.height := by
  simp [GameMap.in_bounds, and_assoc]

theorem pyIndex_of_getElem? {α : Type} (l : List α) (i : Int) (h0 : 0 ≤ i)
    (a : α) (ha : l[i.toNat]? = some a) : pyIndex l i = .ok a := by
  obtain ⟨hlt, hget⟩ := List.getElem?_eq_some.mp ha
  unfold pyIndex
  have hneg : ¬ i < 0 := not_lt.mpr h0
  simp only [hneg, if_false]
  rw [dif_pos ⟨h0, by omega⟩]
  simp [List.get_eq_getElem, hget]

theorem pySet_eq {α : Type} (l : List α) (i : Int) (a : α) (h0 : 0 ≤ i)
    (h1 : i.toNat < l.length) : pySet l i a = .ok (l.set i.toNat a) := by
  unfold pySet
  have hneg : ¬ i < 0 := not_lt.mpr h0
  simp only [hneg, if_false]
  rw [if_pos ⟨h0, by omega⟩]

theorem get_tile_of_cells (m : GameMap) (x y : Int)
    (hb : m.in_bounds x y = true) (col : List Tile) (tl : Tile)
    (hcol : m.tiles[x.toNat]? = some col) (htl : col[y.toNat]? = some tl) :
    m.get_tile x y = .ok (some tl) := by
  obtain ⟨hx0, _, hy0, _⟩ := (in_bounds_iff m x y).mp hb
  unfold GameMap.get_tile
  rw [if_pos hb]
  simp only [pyIndex_of_getElem? m.tiles x hx0 col hcol,
    pyIndex_of_getElem? col y hy0 tl htl, Bind.bind, Except.bind]
  rfl

theorem set_tile_of_cells (m : GameMap) (x y : Int) (t : Tile)
    (hb : m.in_bounds x y = true) (col : List Tile)
    (hcol : m.tiles[x.toNat]? = some col) (hy : y.toNat < col.length) :
    m.set_tile x y t = .ok
      ({ m with tiles := m.tiles.set x.toNat (col.set y.toNat t) }, true) := by
  obtain ⟨hx0, _, hy0, _⟩ := (in_bounds_iff m x y).mp hb
  obtain ⟨hxlt, _⟩ := List.getElem?_eq_some.mp hcol
  unfold GameMap.set_tile
  rw [if_pos hb]
  simp only [pyIndex_of_getElem? m.tiles x hx0 col hcol,
    pySet_eq col y t hy0 hy, pySet_eq m.tiles x (col.set y.toNat t) hx0 hxlt,
    Bind.bind, Except.bind]
  rfl

/-- C5: for a well-formed GameMap and arbitrary integer coordinates —
negative and oversized included — get_tile and set_tile never raise:
outside [0,width) × [0,height) get_tile returns None and set_tile returns
false leaving the map untouched; inside bounds get_tile returns the
stored tile, and set_tile overwrites exactly the addressed cell, keeps
the map well-formed with the same dimensions, and returns true. -/
theorem C5_bounds_safety (m : GameMap) (hwf : m.wf) (x y : Int) (t : Tile) :
    (m.in_bounds x y = false →
        m.get_tile x y = .ok none ∧ m.set_tile x y t = .ok (m, false))
  ∧ (m.in_bounds x y = true →
        (∃ tl, m.get_tile x y = .ok (some tl))
      ∧ ∃ m2, m.set_tile x y t = .ok (m2, true)
          ∧ m2.wf ∧ m2.width = m.width ∧ m2.height = m.height
          ∧ m2.get_tile x y = .ok (some t)
          ∧ ∀ x2 y2 : Int, ¬(x2 = x ∧ y2 = y) →
              m2.get_tile x2 y2 = m.get_tile x2 y2) := by
  constructor
  · intro hb
    have hnb : ¬ m.in_bounds x y = true := by simp [hb]
    constructor
    · unfold GameMap.get_tile
      rw [if_neg hnb]
      rfl
    · unfold GameMap.set_tile
      rw [if_neg hnb]
      rfl
  · intro hb
    obtain ⟨hx0, hxw, hy0, hyh⟩ := (in_bounds_iff m x y).mp hb
    have hxnat : x.toNat < m.tiles.length := by
      rw [hwf.1]
      omega
    have hcol : m.tiles[x.toNat]? = some m.tiles[x.toNat] :=
      List.getElem?_eq_getElem hxnat
    have hcolmem : m.tiles[x.toNat] ∈ m.tiles := List.getElem_mem hxnat
    have hclen : m.tiles[x.toNat].length = m.height.toNat :=
      hwf.2 m.tiles[x.toNat] hcolmem
    have hynat : y.toNat < m.tiles[x.toNat].length := by
      rw [hclen]
      omega
    have htl : m.tiles[x.toNat][y.toNat]? = some m.tiles[x.toNat][y.toNat] :=
      List.getElem?_eq_getElem hynat
    constructor
    · exact ⟨_, get_tile_of_cells m x y hb _ _ hcol htl⟩
    · refine ⟨{ m with tiles := m.tiles.set x.toNat (m.tiles[x.toNat].set y.toNat t) }, set_tile_of_cells m x y t hb _ hcol hynat, ?_, rfl, rfl, ?_, ?_⟩
      · constructor
        · simpa [List.length_set] using hwf.1
        · intro c hc
          rcases List.mem_or_eq_of_mem_set hc with hmem | hceq
          · exact hwf.2 c hmem
          · rw [hceq]
            simpa [List.length_set] using hclen
      · apply get_tile_of_cells
        · exact hb
        · exact List.getElem?_set_self hxnat
        · exact List.getElem?_set_self hynat
      · intro x2 y2 hne
        by_cases hb2 : m.in_bounds x2 y2 = true
        · obtain ⟨hx20, hx2w, hy20, hy2h⟩ := (in_bounds_iff m x2 y2).mp hb2
          have hx2nat : x2.toNat < m.tiles.length := by
            rw [hwf.1]
            omega
          have hcol2 : m.tiles[x2.toNat]? = some m.tiles[x2.toNat] :=
            List.getElem?_eq_getElem hx2nat
          have hc2len : m.tiles[x2.toNat].length = m.height.toNat :=
            hwf.2 m.tiles[x2.toNat] (List.getElem_mem hx2nat)
          have hy2nat : y2.toNat < m.tiles[x2.toNat].length := by
            rw [hc2len]
            omega
          have htl2 : m.tiles[x2.toNat][y2.toNat]?
              = some m.tiles[x2.toNat][y2.toNat] :=
            List.getElem?_eq_getElem hy2nat
          have hRHS := get_tile_of_cells m x2 y2 hb2 _ _ hcol2 htl2
          by_cases hxx : x2 = x
          · subst hxx
            have hyy : y2 ≠ y := fun hcontra => hne ⟨rfl, hcontra⟩
            have hyynat : y.toNat ≠ y2.toNat := by omega
            have hLHS : ({ m with tiles := m.tiles.set x2.toNat (m.tiles[x2.toNat].set y.toNat t) } : GameMap).get_tile x2 y2 = .ok (some m.tiles[x2.toNat][y2.toNat]) := by
              apply get_tile_of_cells
              · exact hb2
              · exact List.getElem?_set_self hx2nat
              · rw [List.getElem?_set_ne hyynat]
                exact htl2
            rw [hLHS, hRHS]
          · have hxxnat : x.toNat ≠ x2.toNat := by omega
            have hLHS : ({ m with tiles := m.tiles.set x.toNat (m.tiles[x.toNat].set y.toNat t) } : GameMap).get_tile x2 y2 = .ok (some m.tiles[x2.toNat][y2.toNat]) := by
              apply get_tile_of_cells
              · exact hb2
              · rw [List.getElem?_set_ne hxxnat]
                exact hcol2
              · exact htl2
            rw [hLHS, hRHS]
        · have hnb2 : ¬ m.in_bounds x2 y2 = true := hb2
          have hnb2b : ¬ ({ m with tiles := m.tiles.set x.toNat (m.tiles[x.toNat].set y.toNat t) } : GameMap).in_bounds x2 y2 = true := hnb2
          unfold GameMap.get_tile
          rw [if_neg hnb2b, if_neg hnb2]

theorem C5_witness :
    (GameMap.make 3 2).get_tile 7 (-1) = .ok none
  ∧ (GameMap.make 3 2).set_tile 7 (-1) Tile.wall
      = .ok (GameMap.make 3 2, false) :=
  (C5_bounds_safety (GameMap.make 3 2) (GameMap.make_wf 3 2) 7 (-1)
    Tile.wall).1 (by decide)

end Spec2Proof
